import Mathlib

/-!
Shallow embedding of `src/uliweb/utils/workers.py` (the process supervision
framework: `Worker`, `Manager`, `get_memory`, `Timeout`).

Conventions of the embedding:
* Python `None` and numeric falsiness are modelled with `Option Nat` and
  `truthyOpt` (`None` and `0` are falsy, positive numbers truthy).
* The string-valued `Worker.is_exit` field (values `None`, "signal",
  "timeout") is the inductive `ExitStatus`.
* One call of the unit of work `self.run()` is an oracle value
  `RunOutcome`: it either returns (with a given truthiness) or raises
  (a `TimeoutException`, or some other `Exception`).
* The `while` loop of `Worker._run` (lines 94-112) is modelled with fuel:
  `runLoop` returns `some finalState` when the loop finished by itself
  within the fuel, and `none` when the fuel was exhausted first.
* `invocations` is an instrumentation counter: the number of times the
  loop body has called `self.run()`.  It does not exist in the Python
  object; no decision of the embedded code reads it.
-/

namespace Workers

/-- Truthiness of a Python optional-integer setting: `None` and `0` are
falsy, every positive integer truthy. -/
def truthyOpt : Option Nat → Bool
  | Option.none => false
  | Option.some n => n != 0

/-- Value of `Worker.is_exit`: Python `None`, "signal" or "timeout". -/
inductive ExitStatus where
  | none
  | signal
  | timeout
deriving DecidableEq, Repr

/-- The exit reason reported by `Worker.after_run` (lines 114-122): which
of the three log branches runs. -/
inductive ExitReason where
  | Signal
  | Timeout
  | MaxIterationsReached
deriving DecidableEq, Repr

/-- The mutable state of a `Worker` seen by `_run`, plus the relevant
configuration fields from `Worker.__init__` (lines 49-68).
`count` starts at 0 and `is_exit` at `None`. -/
structure WorkerState where
  max_requests : Option Nat
  timeout : Option Nat
  check_point : Option Nat
  count : Nat
  is_exit : ExitStatus
  invocations : Nat
deriving DecidableEq, Repr

/-- Fresh worker state as built by `Worker.__init__`: `count = 0`,
`is_exit = None`. -/
def initWorker (max_requests timeout check_point : Option Nat) : WorkerState :=
  { max_requests := max_requests, timeout := timeout, check_point := check_point,
    count := 0, is_exit := ExitStatus.none, invocations := 0 }

/-- The `while` condition of `Worker._run` (lines 95-97):
`(not self.max_requests or (self.max_requests and self.count < self.max_requests)) and not self.is_exit`. -/
def loopCond (s : WorkerState) : Bool :=
  (!truthyOpt s.max_requests ||
    (truthyOpt s.max_requests && decide (s.count < s.max_requests.getD 0))) &&
  decide (s.is_exit = ExitStatus.none)

/-- Outcome of one call of the unit of work `self.run()` (possibly wrapped
in the `Timeout` alarm guard): it returned a value of the given
truthiness, or it raised (`timeoutExc = true` for `TimeoutException`,
`false` for any other `Exception`). -/
inductive RunOutcome where
  | returns (truthy : Bool)
  | raises (timeoutExc : Bool)
deriving DecidableEq, Repr

/-- Result of one execution of the loop body of `Worker._run`
(lines 98-112): the body ran to its end and the loop continues
(`normal`, recording whether the `check_point` sleep was executed), or the
`except TimeoutException` handler executed `return` (`ret`). Both
`except` clauses catch their exception, so no exception escapes the
body. -/
inductive BodyResult where
  | normal (s : WorkerState) (slept : Bool)
  | ret (s : WorkerState)
deriving DecidableEq, Repr

/-- One execution of the body of the `while` loop in `Worker._run`
(lines 98-112), given the outcome of the `self.run()` call:
on a normal return, a truthy result increments `count` and then the
`check_point` sleep runs if `check_point` is truthy; a
`TimeoutException` sets `is_exit = "timeout"` and returns from `_run`;
any other `Exception` is logged (`self.log.exception`) and the body ends
without incrementing `count` and without the sleep. -/
def runBody (s : WorkerState) (o : RunOutcome) : BodyResult :=
  let s1 := { s with invocations := s.invocations + 1 }
  match o with
  | RunOutcome.returns t =>
    let s2 := if t then { s1 with count := s1.count + 1 } else s1
    BodyResult.normal s2 (truthyOpt s.check_point)
  | RunOutcome.raises true => BodyResult.ret { s1 with is_exit := ExitStatus.timeout }
  | RunOutcome.raises false => BodyResult.normal s1 false

/-- Fuelled semantics of the `while` loop of `Worker._run` (lines 94-112).
The stream `outcomes` gives the result of the i-th call of `self.run()`
(indexed by `invocations`).  The result is `some finalState` when the
loop terminated by itself (condition false, or `return` in the timeout
handler) within the fuel, and `none` when the fuel ran out with the loop
still running. -/
def runLoop (outcomes : Nat → RunOutcome) : Nat → WorkerState → Option WorkerState
  | 0, _ => Option.none
  | fuel + 1, s =>
    if loopCond s then
      match runBody s (outcomes s.invocations) with
      | BodyResult.normal s' _ => runLoop outcomes fuel s'
      | BodyResult.ret s' => Option.some s'
    else Option.some s

/-- State after at most `k` passes of the `while` loop of `Worker._run`:
like `runLoop` but returning the state reached after `k` passes even when
the loop is still running. -/
def runTrace (outcomes : Nat → RunOutcome) : Nat → WorkerState → WorkerState
  | 0, s => s
  | k + 1, s =>
    if loopCond s then
      match runBody s (outcomes s.invocations) with
      | BodyResult.normal s' _ => runTrace outcomes k s'
      | BodyResult.ret s' => s'
    else s

/-- The exit reason reported by `Worker.after_run` (lines 114-122): the
`is_exit` values "signal" and "timeout" select their branches, and the
`else` branch logs "cancelled by reaching max requests count" — Python
`None` is reported as the max-requests outcome. -/
def after_run (s : WorkerState) : ExitReason :=
  match s.is_exit with
  | ExitStatus.signal => ExitReason.Signal
  | ExitStatus.timeout => ExitReason.Timeout
  | ExitStatus.none => ExitReason.MaxIterationsReached

/-! ## OS process facts and the Manager (lines 37-44 and 140-238) -/

/-- Python exceptions that the embedded Manager code can meet:
`OSError` from `os.fork`, `ChildProcessError` from `os.waitpid` on a pid
that is not a waitable child, `AttributeError` from calling a method on
`None`.  None of these is a `KeyboardInterrupt`, so none is caught by the
`except KeyboardInterrupt` clause of `Manager.run`. -/
inductive PyErr where
  | osError
  | childProcessError
  | attributeError
deriving DecidableEq, Repr

/-- State of a child process in the OS process table, as far as the code
observes it: running; exited but not yet reaped (a zombie, still present
in the process table); or already reaped (gone from the table). -/
inductive ProcState where
  | running
  | zombie
  | reaped
deriving DecidableEq, Repr

/-- Signals the Manager sends to children. -/
inductive Sig where
  | SIGTERM
  | SIGKILL
deriving DecidableEq, Repr

/-- Behaviour of `psutil.pid_exists(pid)`: true while the pid is in the
process table — including for a zombie, which still has a process-table
entry until it is reaped. -/
def pid_exists : ProcState → Bool
  | ProcState.running => true
  | ProcState.zombie => true
  | ProcState.reaped => false

/-- Behaviour of `os.waitpid(pid, os.WNOHANG)` on a direct child:
for a running child it returns `(0, 0)` and changes nothing; for a
zombie child it reaps it and returns `(pid, status)` with `pid` nonzero;
for a pid that is no longer a waitable child (already reaped) it raises
`ChildProcessError`.  The returned `ProcState` is the state of the
process-table entry after the call. -/
def waitpidWNOHANG (pid : Nat) : ProcState → Except PyErr (Nat × ProcState)
  | ProcState.running => Except.ok (0, ProcState.running)
  | ProcState.zombie => Except.ok (pid, ProcState.reaped)
  | ProcState.reaped => Except.error PyErr.childProcessError

/-- Embedding of `get_memory(pid)` (lines 37-44): first
`os.waitpid(pid, os.WNOHANG)`; if it returned pid 0 the child is running
and the resident set size is read through `psutil` and divided by
`1024*1024` (`rss` is the resident set size in bytes supplied by the
environment); otherwise (the waitpid call reaped the child) 0 is
returned.  An exception from `waitpid` propagates out of `get_memory`.
The second component is the process-table state after the call. -/
def get_memory (pid : Nat) (st : ProcState) (rss : Nat) : Except PyErr ℚ × ProcState :=
  match waitpidWNOHANG pid st with
  | Except.error e => (Except.error e, st)
  | Except.ok (p, st') =>
    if p == 0 then (Except.ok ((rss : ℚ) / (1024 * 1024)), st')
    else (Except.ok 0, st')

/-- The per-worker configuration fields that `Manager.run` reads:
the memory limits (in MB) from `Worker.__init__`. -/
structure WorkerCfg where
  soft_memory_limit : ℚ
  hard_memory_limit : ℚ
deriving DecidableEq, Repr

/-- Embedding of `Worker.reached_soft_memory_limit` (lines 128-132). -/
def reached_soft_memory_limit (w : WorkerCfg) (mem : ℚ) : Bool :=
  if mem ≥ w.soft_memory_limit then true else false

/-- Embedding of `Worker.reached_hard_memory_limit` (lines 134-138). -/
def reached_hard_memory_limit (w : WorkerCfg) (mem : ℚ) : Bool :=
  if mem ≥ w.hard_memory_limit then true else false

/-- Embedding of `Manager.kill_child(pid, sig)` (lines 232-234):
`os.kill(pid, sig)` is executed only if `psutil.pid_exists(pid)`; the
result records which signal, if any, was actually delivered. -/
def kill_child (st : ProcState) (sig : Sig) : Option Sig :=
  if pid_exists st then Option.some sig else Option.none

/-- What the Manager did to one slot during one pass of its polling loop. -/
inductive SlotAction where
  | spawned (newpid : Nat)
  | signalled (sig : Sig)
  | signalSkipped (sig : Sig)
  | noAction
  | inspectionLogged (e : PyErr)
deriving DecidableEq, Repr

/-- Map the result of `kill_child` to the recorded slot action. -/
def killAction (sig : Sig) (delivered : Option Sig) : SlotAction :=
  match delivered with
  | Option.some s => SlotAction.signalled s
  | Option.none => SlotAction.signalSkipped sig

deriving instance DecidableEq for Except

/-- Environment facts a single slot meets during one Manager pass:
the process-table state of the recorded pid (irrelevant when no pid is
recorded), its resident set size in bytes while running, and the outcome
of `os.fork()` should the Manager call it (`ok newpid` is the parent
view; `error` means the OS refused to create the process and `fork`
raised `OSError`). -/
structure SlotEnv where
  st : ProcState
  rss : Nat
  forkResult : Except PyErr Nat
deriving DecidableEq, Repr

/-- Embedding of the per-slot body of `Manager.run` (lines 182-217) as
run in the parent process.  `pid?` is `pids.get(i)`.  A slot with no
recorded pid, or whose pid fails `psutil.pid_exists`, is (re)spawned with
`os.fork` — an `OSError` from `fork` is raised here and caught by no
handler inside the loop, so it escapes as `Except.error`.  Otherwise the
slot is inspected inside the inner `try`: `get_memory`, then the hard
and soft memory-limit checks with `kill_child`; any `Exception` in that
branch is caught and logged (`self.log.info(e)`).  The result carries
the new recorded pid, the process-table state after the pass, and the
action taken. -/
def slotPass (w : WorkerCfg) (pid? : Option Nat) (env : SlotEnv) :
    Except PyErr (Option Nat × ProcState × SlotAction) :=
  let create :=
    match pid? with
    | Option.none => true
    | Option.some _ => !pid_exists env.st
  if create then
    match env.forkResult with
    | Except.error e => Except.error e
    | Except.ok newpid =>
      Except.ok (Option.some newpid, ProcState.running, SlotAction.spawned newpid)
  else
    match pid? with
    | Option.none => Except.ok (Option.none, env.st, SlotAction.noAction)
    | Option.some p =>
      match get_memory p env.st env.rss with
      | (Except.error e, st') => Except.ok (pid?, st', SlotAction.inspectionLogged e)
      | (Except.ok mem, st') =>
        if reached_hard_memory_limit w mem then
          Except.ok (pid?, st', killAction Sig.SIGKILL (kill_child st' Sig.SIGKILL))
        else if reached_soft_memory_limit w mem then
          Except.ok (pid?, st', killAction Sig.SIGTERM (kill_child st' Sig.SIGTERM))
        else
          Except.ok (pid?, st', SlotAction.noAction)

/-- One full pass of the `for i, worker in enumerate(self.workers)` loop
of `Manager.run`, over aligned lists of worker configurations, recorded
pids and per-slot environments.  An exception raised while spawning a
slot aborts the pass at that slot; the pids recorded by the slots already
processed persist (the Python `pids` dict is mutated in place), the
failing slot and the remaining slots keep their old pids. -/
def managerPass : List WorkerCfg → List (Option Nat) → List SlotEnv →
    Except (PyErr × List (Option Nat)) (List (Option Nat))
  | w :: ws, p :: ps, e :: es =>
    match slotPass w p e with
    | Except.error err => Except.error (err, p :: ps)
    | Except.ok (p', _, _) =>
      match managerPass ws ps es with
      | Except.error (err, rest) => Except.error (err, p' :: rest)
      | Except.ok rest => Except.ok (p' :: rest)
  | _, _, _ => Except.ok []

/-- Result of `Manager.run` (lines 177-227): the polling loop observed
`is_exit` and went on to the shutdown path (`finished`); an exception
escaped the loop (`aborted` — the surrounding `try` catches only
`KeyboardInterrupt`, and none of the `PyErr` exceptions is one, so they
propagate out of `Manager.run`); or the fuel ran out with the loop still
polling (`outOfFuel`).  Each constructor carries the recorded pids. -/
inductive ManagerRunResult where
  | finished (pids : List (Option Nat))
  | aborted (e : PyErr) (pids : List (Option Nat))
  | outOfFuel (pids : List (Option Nat))
deriving DecidableEq, Repr

/-- Fuelled semantics of the polling loop `while not self.is_exit` of
`Manager.run` (lines 181-219).  `isExitAt k` tells whether the signal
handler has set `self.is_exit` when the condition is checked before pass
`k`; `envSeq k` gives the per-slot environments met during pass `k` (the
process-table state a pass sees reflects reaps done by earlier passes
and any exits or kills that happened in between). -/
def managerLoop (ws : List WorkerCfg) (envSeq : Nat → List SlotEnv)
    (isExitAt : Nat → Bool) : Nat → Nat → List (Option Nat) → ManagerRunResult
  | 0, _, pids => ManagerRunResult.outOfFuel pids
  | fuel + 1, k, pids =>
    if isExitAt k then ManagerRunResult.finished pids
    else
      match managerPass ws pids (envSeq k) with
      | Except.error (e, pids') => ManagerRunResult.aborted e pids'
      | Except.ok pids' => managerLoop ws envSeq isExitAt fuel (k + 1) pids'

/-- Result of `Manager.__init__` (lines 141-158): the constructor called
`sys.exit(0)`, raised an exception, or returned a constructed Manager. -/
inductive InitOutcome where
  | exited (code : Nat)
  | raisedErr (e : PyErr)
  | constructed (log_present : Bool) (check_point : Nat) (wait_time : Nat)
deriving DecidableEq, Repr

/-- Embedding of `Manager.__init__` (lines 141-158).  `log` is the `log`
argument (`none` is Python `None`).  With an empty worker list the code
runs `log.info('No workers need to run.')` and then `sys.exit(0)`: when
`log` is `None` the attribute access on `None` raises `AttributeError`
before `sys.exit` is reached.  The defaulting `self.log = log or ...`
only happens after the empty check. -/
def managerInit (workers : List WorkerCfg) (log : Option Unit)
    (check_point : Nat) (wait_time : Nat) : InitOutcome :=
  if workers.isEmpty then
    match log with
    | Option.none => InitOutcome.raisedErr PyErr.attributeError
    | Option.some _ => InitOutcome.exited 0
  else
    InitOutcome.constructed log.isSome check_point wait_time

/-- Modelled from the spec: the threshold-ordered action the spec and
claim C3 describe for a live child — forceful terminate at or above the
hard limit, graceful terminate at or above the soft limit, otherwise no
action.  Written from the words of the claim, to be compared with what
`slotPass` computes. -/
def specMemoryAction (w : WorkerCfg) (mem : ℚ) : SlotAction :=
  if mem ≥ w.hard_memory_limit then SlotAction.signalled Sig.SIGKILL
  else if mem ≥ w.soft_memory_limit then SlotAction.signalled Sig.SIGTERM
  else SlotAction.noAction

/-- Whether the `time.sleep(self.check_point)` of line 107 ran during
this execution of the loop body. -/
def BodyResult.slept : BodyResult → Bool
  | BodyResult.normal _ b => b
  | BodyResult.ret _ => false

/-! ## Helper lemmas -/

/-- The while condition of `Worker._run` holds whenever no iteration has
been counted yet and no exit has been requested, for every value of
`max_requests`. -/
theorem loopCond_of_count_zero (s : WorkerState) (hc : s.count = 0)
    (he : s.is_exit = ExitStatus.none) : loopCond s = true := by
  unfold loopCond
  rw [hc, he]
  cases hm : s.max_requests with
  | none => simp [truthyOpt]
  | some n =>
    cases n with
    | zero => simp [truthyOpt]
    | succ m => simp [truthyOpt]

/-- Unfolding equation for one step of `runLoop`. -/
theorem runLoop_step (outcomes : Nat → RunOutcome) (fuel : Nat) (s : WorkerState) :
    runLoop outcomes (fuel + 1) s =
      if loopCond s then
        match runBody s (outcomes s.invocations) with
        | BodyResult.normal s' _ => runLoop outcomes fuel s'
        | BodyResult.ret s' => Option.some s'
      else Option.some s := rfl

/-- Running the loop on a stream of truthy returns from a state with `c`
counted iterations terminates after the remaining `N - c` passes, with
one unit of fuel left over for the final condition check. -/
theorem runLoop_returns_true (N : Nat) (hN : 0 < N) (tm cp : Option Nat) :
    ∀ k c v, c + k = N →
      runLoop (fun _ => RunOutcome.returns true) (k + 1)
        { max_requests := Option.some N, timeout := tm, check_point := cp,
          count := c, is_exit := ExitStatus.none, invocations := v } =
      Option.some
        { max_requests := Option.some N, timeout := tm, check_point := cp,
          count := N, is_exit := ExitStatus.none, invocations := v + k } := by
  intro k
  induction k with
  | zero =>
    intro c v hc
    have hc' : c = N := by omega
    subst hc'
    rw [runLoop_step]
    have hcond :
        loopCond
          { max_requests := Option.some c, timeout := tm, check_point := cp,
            count := c, is_exit := ExitStatus.none, invocations := v } = false := by
      simp [loopCond, truthyOpt]
      omega
    simp [hcond]
  | succ k ih =>
    intro c v hc
    have hcN : c < N := by omega
    rw [runLoop_step]
    have hcond :
        loopCond
          { max_requests := Option.some N, timeout := tm, check_point := cp,
            count := c, is_exit := ExitStatus.none, invocations := v } = true := by
      simp [loopCond, truthyOpt]
      omega
    rw [hcond, if_pos rfl]
    simp only [runBody, if_true]
    rw [ih (c + 1) (v + 1) (by omega)]
    have hv : v + 1 + k = v + (k + 1) := by omega
    rw [hv]

/-! ## Claim theorems -/

/-- C1: a Worker with `max_requests = N` (`N > 0`) whose unit of work
always returns a truthy value, never raises and never times out executes
the unit of work exactly `N` times, its `count` reaches `N`, the loop
then exits by the while condition with `is_exit` still at its default
(Python `None`), and `after_run` reports the max-requests outcome. -/
theorem worker_max_requests_exact (N : Nat) (hN : 0 < N) (tm cp : Option Nat) :
    runLoop (fun _ => RunOutcome.returns true) (N + 1) (initWorker (Option.some N) tm cp) =
      Option.some
        { max_requests := Option.some N, timeout := tm, check_point := cp,
          count := N, is_exit := ExitStatus.none, invocations := N } ∧
    after_run
        { max_requests := Option.some N, timeout := tm, check_point := cp,
          count := N, is_exit := ExitStatus.none, invocations := N } =
      ExitReason.MaxIterationsReached := by
  constructor
  · have h := runLoop_returns_true N hN tm cp N 0 0 (by omega)
    simpa [initWorker] using h
  · rfl

/-- Witness for C1 at `N = 2`. -/
theorem worker_max_requests_exact_witness :
    runLoop (fun _ => RunOutcome.returns true) 3
        (initWorker (Option.some 2) Option.none Option.none) =
      Option.some
        { max_requests := Option.some 2, timeout := Option.none, check_point := Option.none,
          count := 2, is_exit := ExitStatus.none, invocations := 2 } ∧
    after_run
        { max_requests := Option.some 2, timeout := Option.none, check_point := Option.none,
          count := 2, is_exit := ExitStatus.none, invocations := 2 } =
      ExitReason.MaxIterationsReached :=
  worker_max_requests_exact 2 (by decide) Option.none Option.none

/-- C4: if the first invocation of the unit of work raises
`TimeoutException` (the deadline guard fired), `_run` returns
immediately with `is_exit = "timeout"` and `count = 0` — the exception is
consumed by the `except TimeoutException` handler, so `_run` ends by a
normal return (`Option.some` here) for every remaining fuel — and
`after_run` reports the timeout outcome. -/
theorem worker_timeout_first_iteration (mr tm cp : Option Nat)
    (outcomes : Nat → RunOutcome) (h0 : outcomes 0 = RunOutcome.raises true)
    (fuel : Nat) :
    runLoop outcomes (fuel + 1) (initWorker mr tm cp) =
      Option.some
        { max_requests := mr, timeout := tm, check_point := cp,
          count := 0, is_exit := ExitStatus.timeout, invocations := 1 } ∧
    after_run
        { max_requests := mr, timeout := tm, check_point := cp,
          count := 0, is_exit := ExitStatus.timeout, invocations := 1 } =
      ExitReason.Timeout := by
  refine ⟨?_, rfl⟩
  rw [runLoop_step, if_pos (loopCond_of_count_zero _ rfl rfl)]
  have hi : (initWorker mr tm cp).invocations = 0 := rfl
  rw [hi, h0]
  rfl

/-- Witness for C4. -/
theorem worker_timeout_first_iteration_witness :
    runLoop (fun _ => RunOutcome.raises true) 1
        (initWorker Option.none (Option.some 5) Option.none) =
      Option.some
        { max_requests := Option.none, timeout := Option.some 5, check_point := Option.none,
          count := 0, is_exit := ExitStatus.timeout, invocations := 1 } ∧
    after_run
        { max_requests := Option.none, timeout := Option.some 5, check_point := Option.none,
          count := 0, is_exit := ExitStatus.timeout, invocations := 1 } =
      ExitReason.Timeout :=
  worker_timeout_first_iteration Option.none (Option.some 5) Option.none
    (fun _ => RunOutcome.raises true) rfl 0

/-- After `k` passes whose unit-of-work calls all raise a non-timeout
`Exception`, the worker state differs from the initial one only in the
number of invocations. -/
theorem runTrace_raises_false (outcomes : Nat → RunOutcome)
    (herr : ∀ i, outcomes i = RunOutcome.raises false) (mr tm cp : Option Nat) :
    ∀ k v, runTrace outcomes k
        { max_requests := mr, timeout := tm, check_point := cp,
          count := 0, is_exit := ExitStatus.none, invocations := v } =
      { max_requests := mr, timeout := tm, check_point := cp,
        count := 0, is_exit := ExitStatus.none, invocations := v + k } := by
  intro k
  induction k with
  | zero => intro v; rfl
  | succ k ih =>
    intro v
    have hcond := loopCond_of_count_zero
      { max_requests := mr, timeout := tm, check_point := cp,
        count := 0, is_exit := ExitStatus.none, invocations := v } rfl rfl
    show (if loopCond _ then _ else _) = _
    rw [if_pos hcond]
    show (match runBody _ (outcomes v) with
      | BodyResult.normal s' _ => runTrace outcomes k s'
      | BodyResult.ret s' => s') = _
    rw [herr v]
    show runTrace outcomes k
      { max_requests := mr, timeout := tm, check_point := cp,
        count := 0, is_exit := ExitStatus.none, invocations := v + 1 } = _
    rw [ih (v + 1)]
    have hv : v + 1 + k = v + (k + 1) := by omega
    rw [hv]

/-- When every unit-of-work call raises a non-timeout `Exception`, the
loop never finishes within any amount of fuel. -/
theorem runLoop_raises_false_none (outcomes : Nat → RunOutcome)
    (herr : ∀ i, outcomes i = RunOutcome.raises false) (mr tm cp : Option Nat) :
    ∀ fuel v, runLoop outcomes fuel
        { max_requests := mr, timeout := tm, check_point := cp,
          count := 0, is_exit := ExitStatus.none, invocations := v } = Option.none := by
  intro fuel
  induction fuel with
  | zero => intro v; rfl
  | succ fuel ih =>
    intro v
    have hcond := loopCond_of_count_zero
      { max_requests := mr, timeout := tm, check_point := cp,
        count := 0, is_exit := ExitStatus.none, invocations := v } rfl rfl
    rw [runLoop_step, if_pos hcond]
    show (match runBody _ (outcomes v) with
      | BodyResult.normal s' _ => runLoop outcomes fuel s'
      | BodyResult.ret s' => Option.some s') = _
    rw [herr v]
    exact ih (v + 1)

/-- C7: for a Worker whose unit of work raises a non-timeout error on
every invocation, `count` remains 0 after any number of loop passes,
`is_exit` stays at Python `None`, the while condition still holds after
every pass (each single-iteration error is recovered locally), and the
loop never terminates within any amount of fuel — repeated failure alone
never ends it. -/
theorem worker_errors_nonfatal (mr tm cp : Option Nat)
    (outcomes : Nat → RunOutcome)
    (herr : ∀ i, outcomes i = RunOutcome.raises false) :
    (∀ k, (runTrace outcomes k (initWorker mr tm cp)).count = 0 ∧
      (runTrace outcomes k (initWorker mr tm cp)).is_exit = ExitStatus.none ∧
      (runTrace outcomes k (initWorker mr tm cp)).invocations = k ∧
      loopCond (runTrace outcomes k (initWorker mr tm cp)) = true) ∧
    (∀ fuel, runLoop outcomes fuel (initWorker mr tm cp) = Option.none) := by
  constructor
  · intro k
    have h := runTrace_raises_false outcomes herr mr tm cp k 0
    rw [show initWorker mr tm cp =
      { max_requests := mr, timeout := tm, check_point := cp,
        count := 0, is_exit := ExitStatus.none, invocations := 0 } from rfl, h]
    exact ⟨rfl, rfl, by simp, loopCond_of_count_zero _ rfl rfl⟩
  · intro fuel
    exact runLoop_raises_false_none outcomes herr mr tm cp fuel 0

/-- Witness for C7 at `max_requests = 5`, three passes. -/
theorem worker_errors_nonfatal_witness :
    (runTrace (fun _ => RunOutcome.raises false) 3
        (initWorker (Option.some 5) Option.none Option.none)).count = 0 ∧
    runLoop (fun _ => RunOutcome.raises false) 4
        (initWorker (Option.some 5) Option.none Option.none) = Option.none :=
  ⟨((worker_errors_nonfatal (Option.some 5) Option.none Option.none
      (fun _ => RunOutcome.raises false) (fun _ => rfl)).1 3).1,
   (worker_errors_nonfatal (Option.some 5) Option.none Option.none
      (fun _ => RunOutcome.raises false) (fun _ => rfl)).2 4⟩

/-- Helper for C9: with a falsy `max_requests` and no timeout raised, the
loop never finishes within any amount of fuel, from any state that has
not recorded an exit. -/
theorem runLoop_none_of_falsy_max (outcomes : Nat → RunOutcome)
    (hto : ∀ i, outcomes i ≠ RunOutcome.raises true) :
    ∀ fuel s, truthyOpt s.max_requests = false → s.is_exit = ExitStatus.none →
      runLoop outcomes fuel s = Option.none := by
  intro fuel
  induction fuel with
  | zero => intro s _ _; rfl
  | succ fuel ih =>
    intro s hm he
    have hcond : loopCond s = true := by
      unfold loopCond
      rw [hm, he]
      simp
    rw [runLoop_step, if_pos hcond]
    cases ho : outcomes s.invocations with
    | returns t =>
      cases t with
      | true =>
        show runLoop outcomes fuel { s with count := s.count + 1, invocations := s.invocations + 1 } = _
        exact ih _ hm he
      | false =>
        show runLoop outcomes fuel { s with invocations := s.invocations + 1 } = _
        exact ih _ hm he
    | raises b =>
      cases b with
      | true => exact absurd ho (hto s.invocations)
      | false =>
        show runLoop outcomes fuel { s with invocations := s.invocations + 1 } = _
        exact ih _ hm he

/-- C9: a Worker whose `max_requests` is falsy (Python `None` or `0`) is
unbounded: the while condition of `_run` holds for every `count` as long
as no exit has been recorded, and with a unit of work that never raises
`TimeoutException` the loop runs forever (it does not exit before the
first iteration or after any later one). -/
theorem worker_falsy_max_unbounded (mx : Option Nat)
    (hmax : truthyOpt mx = false) :
    (∀ s : WorkerState, s.max_requests = mx → s.is_exit = ExitStatus.none →
      loopCond s = true) ∧
    (∀ outcomes : Nat → RunOutcome, (∀ i, outcomes i ≠ RunOutcome.raises true) →
      ∀ fuel tm cp, runLoop outcomes fuel (initWorker mx tm cp) = Option.none) := by
  constructor
  · intro s hs he
    unfold loopCond
    rw [hs, hmax, he]
    simp
  · intro outcomes hto fuel tm cp
    exact runLoop_none_of_falsy_max outcomes hto fuel (initWorker mx tm cp) hmax rfl

/-- Witness for C9 at `max_requests = 0`. -/
theorem worker_falsy_max_unbounded_witness :
    loopCond
      { max_requests := Option.some 0, timeout := Option.none, check_point := Option.none,
        count := 7, is_exit := ExitStatus.none, invocations := 7 } = true ∧
    runLoop (fun _ => RunOutcome.returns true) 3
      (initWorker (Option.some 0) Option.none Option.none) = Option.none :=
  ⟨(worker_falsy_max_unbounded (Option.some 0) (by decide)).1 _ rfl rfl,
   (worker_falsy_max_unbounded (Option.some 0) (by decide)).2
      (fun _ => RunOutcome.returns true) (fun i h => nomatch h) 3 Option.none Option.none⟩

/-- C10: the `check_point` pause of line 107 runs exactly on the body
executions where `self.run()` returned without raising (whatever the
truthiness of its result) and `check_point` is truthy; when the unit of
work raises a non-timeout error the pause is skipped and the body ends
(the error having been logged), so the next invocation follows
immediately. -/
theorem check_point_sleep_only_on_return (s : WorkerState) :
    (∀ t, (runBody s (RunOutcome.returns t)).slept = truthyOpt s.check_point) ∧
    (runBody s (RunOutcome.raises false)).slept = false ∧
    runBody s (RunOutcome.raises false) =
      BodyResult.normal { s with invocations := s.invocations + 1 } false := by
  refine ⟨fun t => ?_, rfl, rfl⟩
  cases t <;> rfl

/-- C3: for a slot whose recorded pid is a live (running) child, the
Manager pass reads its resident memory through `get_memory` and acts
exactly as the threshold order of the spec describes: `SIGKILL` at or
above the hard limit, else `SIGTERM` at or above the soft limit, else no
action; the recorded pid is unchanged. -/
theorem memory_threshold_action (w : WorkerCfg) (p : Nat) (env : SlotEnv)
    (h : env.st = ProcState.running) :
    slotPass w (Option.some p) env =
      Except.ok (Option.some p, ProcState.running,
        specMemoryAction w ((env.rss : ℚ) / (1024 * 1024))) := by
  have hmem : get_memory p ProcState.running env.rss =
      (Except.ok ((env.rss : ℚ) / (1024 * 1024)), ProcState.running) := rfl
  unfold slotPass
  rw [h]
  simp only [pid_exists, Bool.not_true, Bool.false_eq_true, if_false, hmem]
  unfold reached_hard_memory_limit reached_soft_memory_limit
  unfold kill_child killAction specMemoryAction pid_exists
  by_cases hh : ((env.rss : ℚ) / (1024 * 1024)) ≥ w.hard_memory_limit
  · simp [hh]
  · by_cases hs : ((env.rss : ℚ) / (1024 * 1024)) ≥ w.soft_memory_limit
    · simp [hh, hs]
    · simp [hh, hs]

/-- Witness for C3: a running child at 400 MB against limits 200/300 MB
gets the unconditional kill. -/
theorem memory_threshold_action_witness :
    slotPass { soft_memory_limit := 200, hard_memory_limit := 300 } (Option.some 5)
        { st := ProcState.running, rss := 419430400, forkResult := Except.ok 9 } =
      Except.ok (Option.some 5, ProcState.running, SlotAction.signalled Sig.SIGKILL) := by
  have h := memory_threshold_action
    { soft_memory_limit := 200, hard_memory_limit := 300 } 5
    { st := ProcState.running, rss := 419430400, forkResult := Except.ok 9 } rfl
  rw [h]
  norm_num [specMemoryAction]

/-- C2 counterexample: with one empty slot whose spawn attempt fails
(`os.fork` raises `OSError`), the polling loop aborts — the exception is
not caught (the inner handler covers only the memory-inspection branch
and the outer one only `KeyboardInterrupt`), the slot stays unfilled and
there is no next pass, contradicting the claim that spawn failures are
caught, logged and retried without terminating the loop. -/
theorem spawn_failure_counterexample :
    managerLoop [{ soft_memory_limit := 200, hard_memory_limit := 300 }]
        (fun _ => [{ st := ProcState.running, rss := 0,
                     forkResult := Except.error PyErr.osError }])
        (fun _ => false) 2 0 [Option.none] =
      ManagerRunResult.aborted PyErr.osError [Option.none] := rfl

/-- C2 amended: a spawn failure in `Manager.run` is fatal to the polling
loop — an `OSError` raised by `os.fork` for a slot with no live pid
propagates out of the pass (no handler around the spawn branch catches
it, and the `try` around the loop catches only `KeyboardInterrupt`), the
loop terminates with the slot still unfilled, and no retry happens. -/
theorem spawn_failure_aborts (w : WorkerCfg) (env : SlotEnv) (e : PyErr)
    (hf : env.forkResult = Except.error e) (isExitAt : Nat → Bool)
    (k fuel : Nat) (hx : isExitAt k = false) :
    managerLoop [w] (fun _ => [env]) isExitAt (fuel + 1) k [Option.none] =
      ManagerRunResult.aborted e [Option.none] := by
  show (if isExitAt k then _ else _) = _
  rw [if_neg (by simp [hx])]
  show (match managerPass [w] [Option.none] [env] with
    | Except.error (e, pids') => ManagerRunResult.aborted e pids'
    | Except.ok pids' => managerLoop [w] (fun _ => [env]) isExitAt fuel (k + 1) pids') = _
  unfold managerPass slotPass
  rw [hf]
  rfl

/-- Witness for the amended C2. -/
theorem spawn_failure_aborts_witness :
    managerLoop [{ soft_memory_limit := 200, hard_memory_limit := 300 }]
        (fun _ => [{ st := ProcState.running, rss := 0,
                     forkResult := Except.error PyErr.osError }])
        (fun _ => false) 5 0 [Option.none] =
      ManagerRunResult.aborted PyErr.osError [Option.none] :=
  spawn_failure_aborts { soft_memory_limit := 200, hard_memory_limit := 300 }
    { st := ProcState.running, rss := 0, forkResult := Except.error PyErr.osError }
    PyErr.osError rfl (fun _ => false) 0 4 rfl

/-- C5 counterexample: the liveness check of the Manager pass is
`psutil.pid_exists`, which reports a zombie (exited but unreaped) child
as alive, so the pass does not respawn the slot: at a concrete input the
slot keeps its pid and the pass takes no spawn action — contradicting
the claim that a zombie is reported as not alive and respawned. -/
theorem zombie_liveness_counterexample :
    pid_exists ProcState.zombie = true ∧
    slotPass { soft_memory_limit := 200, hard_memory_limit := 300 } (Option.some 7)
        { st := ProcState.zombie, rss := 0, forkResult := Except.ok 9 } =
      Except.ok (Option.some 7, ProcState.reaped, SlotAction.noAction) := by
  refine ⟨rfl, ?_⟩
  norm_num [slotPass, pid_exists, get_memory, waitpidWNOHANG,
    reached_hard_memory_limit, reached_soft_memory_limit]

/-- C5 amended: the liveness check is `psutil.pid_exists` alone, which
reports a zombie as alive, so the slot is not respawned on the pass that
meets the zombie; instead the non-blocking reap happens inside
`get_memory` during the memory inspection of that pass (reading 0 MB,
below positive limits, hence no action), and on the following pass —
the pid now reaped and gone from the process table — the slot is
respawned. -/
theorem zombie_reaped_then_respawned (w : WorkerCfg) (p np : Nat)
    (env1 env2 : SlotEnv) (hp : p ≠ 0)
    (h1 : env1.st = ProcState.zombie)
    (hs : 0 < w.soft_memory_limit) (hh : 0 < w.hard_memory_limit)
    (h2 : env2.st = ProcState.reaped) (hf : env2.forkResult = Except.ok np) :
    slotPass w (Option.some p) env1 =
      Except.ok (Option.some p, ProcState.reaped, SlotAction.noAction) ∧
    slotPass w (Option.some p) env2 =
      Except.ok (Option.some np, ProcState.running, SlotAction.spawned np) := by
  constructor
  · have hmem : get_memory p ProcState.zombie env1.rss = (Except.ok 0, ProcState.reaped) := by
      simp [get_memory, waitpidWNOHANG, hp]
    have hhn : ¬ ((0 : ℚ) ≥ w.hard_memory_limit) := not_le.mpr hh
    have hsn : ¬ ((0 : ℚ) ≥ w.soft_memory_limit) := not_le.mpr hs
    unfold slotPass
    rw [h1]
    simp only [pid_exists, Bool.not_true, Bool.false_eq_true, if_false, hmem]
    simp [reached_hard_memory_limit, reached_soft_memory_limit, hhn, hsn]
  · unfold slotPass
    rw [h2]
    simp only [pid_exists, Bool.not_false, if_true]
    rw [hf]

/-- Witness for the amended C5. -/
theorem zombie_reaped_then_respawned_witness :
    slotPass { soft_memory_limit := 200, hard_memory_limit := 300 } (Option.some 7)
        { st := ProcState.zombie, rss := 0, forkResult := Except.ok 9 } =
      Except.ok (Option.some 7, ProcState.reaped, SlotAction.noAction) ∧
    slotPass { soft_memory_limit := 200, hard_memory_limit := 300 } (Option.some 7)
        { st := ProcState.reaped, rss := 0, forkResult := Except.ok 9 } =
      Except.ok (Option.some 9, ProcState.running, SlotAction.spawned 9) :=
  zombie_reaped_then_respawned
    { soft_memory_limit := 200, hard_memory_limit := 300 } 7 9
    { st := ProcState.zombie, rss := 0, forkResult := Except.ok 9 }
    { st := ProcState.reaped, rss := 0, forkResult := Except.ok 9 }
    (by decide) rfl (by norm_num) (by norm_num) rfl rfl

/-- C6 counterexample: at a pid whose child has already been reaped (the
process is not alive), `get_memory` does not return 0 — `os.waitpid`
raises `ChildProcessError`, which propagates out of `get_memory`,
contradicting the claim that 0 is returned rather than an error being
raised. -/
theorem get_memory_reaped_raises :
    get_memory 7 ProcState.reaped 0 =
      (Except.error PyErr.childProcessError, ProcState.reaped) := rfl

/-- C6 amended: `get_memory` returns the resident set size divided by
`1024*1024` for a running child, returns 0 for a child that has exited
but has not yet been reaped (the `waitpid` call reaps it), and raises
`ChildProcessError` for a pid that is no longer a waitable child
(already reaped). -/
theorem get_memory_cases (pid rss : Nat) (hp : pid ≠ 0) :
    get_memory pid ProcState.running rss =
      (Except.ok ((rss : ℚ) / (1024 * 1024)), ProcState.running) ∧
    get_memory pid ProcState.zombie rss = (Except.ok 0, ProcState.reaped) ∧
    get_memory pid ProcState.reaped rss =
      (Except.error PyErr.childProcessError, ProcState.reaped) := by
  refine ⟨rfl, ?_, rfl⟩
  simp [get_memory, waitpidWNOHANG, hp]

/-- Witness for the amended C6. -/
theorem get_memory_cases_witness :
    get_memory 7 ProcState.running 2097152 =
      (Except.ok ((2097152 : ℚ) / (1024 * 1024)), ProcState.running) ∧
    get_memory 7 ProcState.zombie 2097152 = (Except.ok 0, ProcState.reaped) ∧
    get_memory 7 ProcState.reaped 2097152 =
      (Except.error PyErr.childProcessError, ProcState.reaped) :=
  get_memory_cases 7 2097152 (by decide)

/-- C8: evaluating `Manager.__init__` at an empty worker list. With a
log object present, the code logs and calls `sys.exit(0)` — immediate
process exit. With `log = None` (the default-looking combination the
claim also covers), the line `log.info('No workers need to run.')` runs
before the `log or ...` defaulting and raises `AttributeError` on
`None`, so `sys.exit(0)` is never reached: the claimed uniform immediate
exit fails for `log = None`. -/
theorem manager_init_empty (cp wt : Nat) :
    managerInit [] Option.none cp wt = InitOutcome.raisedErr PyErr.attributeError ∧
    managerInit [] (Option.some ()) cp wt = InitOutcome.exited 0 :=
  ⟨rfl, rfl⟩

end Workers
